import Mathlib

/-!
Shallow embedding of the FoodSense nutrition-analysis service.

Source of truth: `src/services/ai-service.ts` (provider calls, response
parsing, error classification, debounced analyzer) and `src/config/env.ts`
(provider selection).  JavaScript numbers are modelled as `ℚ` (the claims
under study involve only exact decimal arithmetic, where double rounding
cannot change any stated result), strings as `List Char` (one entry per
code point; `String.prototype.substring` counts UTF-16 units, which agrees
on the concrete inputs used here), and `JSON.parse` as an executable
recursive-descent parser over the JSON grammar.  The outcome of the single
`axios.post` made per analysis is an explicit oracle value, and thrown
JavaScript values are an inductive type distinguishing exactly the shapes
`handleAPIError` discriminates on.
-/

namespace AiService

/-- The JavaScript whitespace class used by `String.prototype.trim` and the
regex class `\s`: ASCII whitespace plus the Unicode space separators. -/
def jsWhitespace (c : Char) : Bool :=
  c == ' ' || c == '\t' || c == '\n' || c == '\r' || c.toNat == 11 || c.toNat == 12 ||
  c.toNat == 160 || c.toNat == 5760 || (8192 ≤ c.toNat && c.toNat ≤ 8202) ||
  c.toNat == 8232 || c.toNat == 8233 || c.toNat == 8239 || c.toNat == 8287 ||
  c.toNat == 12288 || c.toNat == 65279

/-- Whitespace as accepted between tokens by the JSON grammar (`JSON.parse`). -/
def jsonWsChar (c : Char) : Bool :=
  c == ' ' || c == '\t' || c == '\n' || c == '\r'

/-- The regex class `\d`: the ASCII digits. -/
def isDigitChar (c : Char) : Bool :=
  48 ≤ c.toNat && c.toNat ≤ 57

/-- The left-brace character. -/
def lbrace : Char := '\x7b'

/-- The right-brace character. -/
def rbrace : Char := '\x7d'

/-- JavaScript values as produced by `JSON.parse`: null, booleans, (finite)
numbers, strings, arrays and objects.  Object fields are kept in source
order; duplicate keys are resolved on access (last one wins), as in JS. -/
inductive JVal where
  | null : JVal
  | bool (b : Bool) : JVal
  | num (q : ℚ) : JVal
  | str (s : List Char) : JVal
  | arr (elems : List JVal) : JVal
  | obj (fields : List (List Char × JVal)) : JVal

/-- Drop JSON inter-token whitespace. -/
def skipJsonWs : List Char → List Char :=
  List.dropWhile jsonWsChar

/-- Value of a hexadecimal digit. -/
def hexVal (c : Char) : Option Nat :=
  if 48 ≤ c.toNat && c.toNat ≤ 57 then some (c.toNat - 48)
  else if 97 ≤ c.toNat && c.toNat ≤ 102 then some (c.toNat - 87)
  else if 65 ≤ c.toNat && c.toNat ≤ 70 then some (c.toNat - 55)
  else none

/-- Single-character JSON string escapes. -/
def escChar (e : Char) : Option Char :=
  if e == '"' then some '"'
  else if e == '\\' then some '\\'
  else if e == '/' then some '/'
  else if e == 'b' then some (Char.ofNat 8)
  else if e == 'f' then some (Char.ofNat 12)
  else if e == 'n' then some '\n'
  else if e == 'r' then some '\r'
  else if e == 't' then some '\t'
  else none

/-- Parse the body of a JSON string (the opening quote already consumed),
returning the decoded characters and the rest of the input.  Unescaped
control characters and bad escapes are syntax errors, as in `JSON.parse`. -/
def parseJString : Nat → List Char → Option (List Char × List Char)
  | 0, _ => none
  | _, [] => none
  | fuel + 1, c :: cs =>
    if c == '"' then some ([], cs)
    else if c == '\\' then
      match cs with
      | [] => none
      | e :: cs2 =>
        if e == 'u' then
          match cs2 with
          | h1 :: h2 :: h3 :: h4 :: cs3 =>
            match hexVal h1, hexVal h2, hexVal h3, hexVal h4 with
            | some a, some b, some c2, some d =>
              (parseJString fuel cs3).map
                (fun p => (Char.ofNat (4096 * a + 256 * b + 16 * c2 + d) :: p.1, p.2))
            | _, _, _, _ => none
          | _ => none
        else
          match escChar e with
          | some ch => (parseJString fuel cs2).map (fun p => (ch :: p.1, p.2))
          | none => none
    else if c.toNat < 32 then none
    else (parseJString fuel cs).map (fun p => (c :: p.1, p.2))

/-- Numeric value of a list of decimal digits. -/
def digitsToNat (ds : List Char) : Nat :=
  ds.foldl (fun n c => 10 * n + (c.toNat - 48)) 0

/-- Parse the integer part of a JSON number: `0`, or a nonzero digit
followed by digits (leading zeros are rejected by the JSON grammar). -/
def parseIntPart : List Char → Option (Nat × List Char)
  | [] => none
  | c :: cs =>
    if c == '0' then some (0, cs)
    else if 49 ≤ c.toNat && c.toNat ≤ 57 then
      some (digitsToNat (c :: cs.takeWhile isDigitChar), cs.dropWhile isDigitChar)
    else none

/-- Parse a JSON number (`-? int frac? exp?`) into an exact rational. -/
def parseNumber (cs0 : List Char) : Option (ℚ × List Char) :=
  let signRes : Bool × List Char :=
    match cs0 with
    | c :: cs => if c == '-' then (true, cs) else (false, cs0)
    | [] => (false, cs0)
  match parseIntPart signRes.2 with
  | none => none
  | some (ip, cs2) =>
    let fracRes : Option (List Char × List Char) :=
      match cs2 with
      | c :: cs3 =>
        if c == '.' then
          let ds := cs3.takeWhile isDigitChar
          if ds.isEmpty then none else some (ds, cs3.dropWhile isDigitChar)
        else some ([], cs2)
      | [] => some ([], cs2)
    match fracRes with
    | none => none
    | some (fds, cs4) =>
      let expRes : Option (Bool × Nat × List Char) :=
        match cs4 with
        | c :: cs5 =>
          if c == 'e' || c == 'E' then
            let signExp : Bool × List Char :=
              match cs5 with
              | d :: cs7 =>
                if d == '-' then (true, cs7)
                else if d == '+' then (false, cs7) else (false, cs5)
              | [] => (false, cs5)
            let eds := signExp.2.takeWhile isDigitChar
            if eds.isEmpty then none
            else some (signExp.1, digitsToNat eds, signExp.2.dropWhile isDigitChar)
          else some (false, 0, cs4)
        | [] => some (false, 0, cs4)
      match expRes with
      | none => none
      | some (eneg, ev, cs8) =>
        let mantissa : Nat := ip * 10 ^ fds.length + digitsToNat fds
        let signedMant : Int := if signRes.1 then -(mantissa : Int) else (mantissa : Int)
        let q : ℚ :=
          if eneg then mkRat signedMant (10 ^ (fds.length + ev))
          else mkRat (signedMant * ((10 ^ ev : Nat) : Int)) (10 ^ fds.length)
        some (q, cs8)

/-- Consume an expected literal suffix (used for `null`, `true`, `false`). -/
def stripLit : List Char → List Char → Option (List Char)
  | [], cs => some cs
  | _ :: _, [] => none
  | p :: ps, c :: cs => if c == p then stripLit ps cs else none

/-- Parse the elements of a non-empty JSON array, given a parser for values
(one fuel level below), up to and including the closing bracket. -/
def parseElemsF (pv : List Char → Option (JVal × List Char)) :
    Nat → List Char → Option (List JVal × List Char)
  | 0, _ => none
  | fuel + 1, cs =>
    match pv cs with
    | none => none
    | some (v, cs2) =>
      match skipJsonWs cs2 with
      | c :: cs3 =>
        if c == ',' then (parseElemsF pv fuel cs3).map (fun p => (v :: p.1, p.2))
        else if c == ']' then some ([v], cs3)
        else none
      | [] => none

/-- Parse the members of a non-empty JSON object, given a parser for values,
up to and including the closing brace. -/
def parseFieldsF (pv : List Char → Option (JVal × List Char)) :
    Nat → List Char → Option (List (List Char × JVal) × List Char)
  | 0, _ => none
  | fuel + 1, cs =>
    match skipJsonWs cs with
    | c :: cs2 =>
      if c == '"' then
        match parseJString (cs2.length + 1) cs2 with
        | none => none
        | some (key, cs3) =>
          match skipJsonWs cs3 with
          | d :: cs4 =>
            if d == ':' then
              match pv cs4 with
              | none => none
              | some (v, cs5) =>
                match skipJsonWs cs5 with
                | e :: cs6 =>
                  if e == ',' then
                    (parseFieldsF pv fuel cs6).map (fun p => ((key, v) :: p.1, p.2))
                  else if e == rbrace then some ([(key, v)], cs6)
                  else none
                | [] => none
            else none
          | [] => none
      else none
    | [] => none

/-- Parse one JSON value (with leading whitespace), leaving the rest of the
input.  Fuel bounds the nesting depth; `jsonParse` supplies enough for any
input of the given length. -/
def parseValue : Nat → List Char → Option (JVal × List Char)
  | 0, _ => none
  | fuel + 1, cs0 =>
    match skipJsonWs cs0 with
    | [] => none
    | c :: cs =>
      if c == lbrace then
        match skipJsonWs cs with
        | d :: cs2 =>
          if d == rbrace then some (JVal.obj [], cs2)
          else (parseFieldsF (parseValue fuel) (cs.length + 1) cs).map
            (fun p => (JVal.obj p.1, p.2))
        | [] => none
      else if c == '[' then
        match skipJsonWs cs with
        | d :: cs2 =>
          if d == ']' then some (JVal.arr [], cs2)
          else (parseElemsF (parseValue fuel) (cs.length + 1) cs).map
            (fun p => (JVal.arr p.1, p.2))
        | [] => none
      else if c == '"' then
        (parseJString (cs.length + 1) cs).map (fun p => (JVal.str p.1, p.2))
      else if c == 'n' then (stripLit ("ull".data) cs).map (fun r => (JVal.null, r))
      else if c == 't' then (stripLit ("rue".data) cs).map (fun r => (JVal.bool true, r))
      else if c == 'f' then (stripLit ("alse".data) cs).map (fun r => (JVal.bool false, r))
      else (parseNumber (c :: cs)).map (fun p => (JVal.num p.1, p.2))

/-- The embedding of `JSON.parse`: the whole input must be one JSON value
surrounded by whitespace, otherwise the parse throws (here: `none`). -/
def jsonParse (cs : List Char) : Option JVal :=
  match parseValue (cs.length + 1) cs with
  | some (v, rest) => if (skipJsonWs rest).isEmpty then some v else none
  | none => none

example : jsonParse (("\x7b\"a\":1.5,\"b\":[\"x\",true],\"c\":null\x7d").data) =
    some (JVal.obj [(("a").data, JVal.num (mkRat 3 2)),
                    (("b").data, JVal.arr [JVal.str (("x").data), JVal.bool true]),
                    (("c").data, JVal.null)]) := rfl

example : jsonParse (("I cannot determine this.").data) = none := rfl

example : jsonParse (("-12.25e1").data) = some (JVal.num (mkRat (-245) 2)) := rfl

/-- JavaScript property access `v.key` on a parsed JSON value: defined only on
objects (`undefined`, i.e. `none`, otherwise); with duplicate keys the last
binding wins, as in `JSON.parse`. -/
def getField (v : JVal) (key : List Char) : Option JVal :=
  match v with
  | JVal.obj fields => ((fields.filter (fun kv => kv.1 == key)).getLast?).map Prod.snd
  | _ => none

/-- JavaScript truthiness of a JSON-obtained value (no `NaN` or `undefined`
can appear inside a parsed JSON tree). -/
def jsTruthy (v : JVal) : Bool :=
  match v with
  | JVal.null => false
  | JVal.bool b => b
  | JVal.num q => !(q == 0)
  | JVal.str s => !s.isEmpty
  | JVal.arr _ => true
  | JVal.obj _ => true

/-- The JavaScript test `v.length === 0`: only arrays and strings have a
numeric `length`; for every other value the access yields `undefined` and
the strict comparison is false. -/
def jvalLenIsZero (v : JVal) : Bool :=
  match v with
  | JVal.arr xs => xs.isEmpty
  | JVal.str s => s.isEmpty
  | _ => false

/-- The `APIError` value shape produced by `createAPIError`. -/
structure APIError where
  message : String
  code : String
  retryable : Bool
deriving DecidableEq

/-- Embedding of `createAPIError` (ai-service.ts line 284). -/
def createAPIError (message : String) (code : String) (retryable : Bool) : APIError :=
  { message := message, code := code, retryable := retryable }

/-- The `AIAnalysisResult` record.  The four macro fields are JS numbers
(here `ℚ`); `explanation`, `confidence` and `sources` keep whatever JS value
the parse produced (the source never validates their types). -/
structure AIAnalysisResult where
  calories : ℚ
  protein : ℚ
  carbs : ℚ
  fat : ℚ
  explanation : JVal
  confidence : JVal
  sources : JVal

/-- Embedding of `Math.round`: round half toward positive infinity,
`⌊x + 1/2⌋`, computed on the canonical numerator/denominator. -/
def jroundInt (q : ℚ) : ℤ :=
  (2 * q.num + (q.den : ℤ)).fdiv (2 * (q.den : ℤ))

/-- The rounded JS number, as a JS number again. -/
def jround (q : ℚ) : ℚ := ((jroundInt q : ℤ) : ℚ)

example : jround (mkRat 4526 10) = 453 := rfl
example : jround (mkRat 231 10) = 23 := rfl
example : jround (-100) = -100 := rfl

/-! Regular-expression engine for the four extraction patterns of
`extractNutritionFromText` (ai-service.ts lines 189-192).  Each pattern has
the form `(\d+)` followed by a tail built from character classes, optional
groups, ordered alternation and case-insensitive literals.  Acceptance is
Boolean (does some way of matching the tail exist at this position?), which
coincides with the backtracking engine's success; the single capture group
is handled at the top: JavaScript prefers the longest digit run, then the
leftmost starting position. -/

/-- Regex syntax for the tails: empty, one character of a class, sequencing,
ordered alternation, and greedy star over a character class (the only
starred subpatterns in the source are `\s*` and `\d+`). -/
inductive Re where
  | eps : Re
  | cls (p : Char → Bool) : Re
  | cat (a b : Re) : Re
  | alt (a b : Re) : Re
  | starC (p : Char → Bool) : Re

/-- Does the star over class `p` admit a split of `cs` whose remainder
satisfies the continuation?  (Greedy order is irrelevant for acceptance.) -/
def starAccept (p : Char → Bool) (cs : List Char) (k : List Char → Bool) : Bool :=
  (List.range ((cs.takeWhile p).length + 1)).any (fun i => k (cs.drop i))

/-- Continuation-passing acceptance: `r.accept cs k` is true when some
prefix of `cs` matches `r` and `k` accepts the corresponding remainder. -/
def Re.accept : Re → List Char → (List Char → Bool) → Bool
  | Re.eps, cs, k => k cs
  | Re.cls _, [], _ => false
  | Re.cls p, c :: cs, k => p c && k cs
  | Re.cat a b, cs, k => a.accept cs (fun rest => b.accept rest k)
  | Re.alt a b, cs, k => a.accept cs k || b.accept cs k
  | Re.starC p, cs, k => starAccept p cs k

/-- Case-insensitive literal (pattern letters are lowercase ASCII). -/
def litCI (s : List Char) : Re :=
  s.foldr (fun c r => Re.cat (Re.cls (fun d => d.toLower == c)) r) Re.eps

/-- Greedy option `(?:...)?`. -/
def reOpt (r : Re) : Re := Re.alt r Re.eps

/-- One-or-more over a character class, `p+`. -/
def rePlusC (p : Char → Bool) : Re := Re.cat (Re.cls p) (Re.starC p)

/-- Tail of `/(\d+)\s*(?:cal|kcal|calories)/i` after the capture group. -/
def calTail : Re :=
  Re.cat (Re.starC jsWhitespace)
    (Re.alt (litCI (("cal").data)) (Re.alt (litCI (("kcal").data)) (litCI (("calories").data))))

/-- Tail of `/(\d+)\s*(?:g|grams?)?\s*(?:of\s+)?WORD/i` after the capture. -/
def unitTail (word : List Char) : Re :=
  Re.cat (Re.starC jsWhitespace)
    (Re.cat (reOpt (Re.alt (litCI [('g')]) (Re.cat (litCI (("gram").data)) (reOpt (litCI [('s')])))))
      (Re.cat (Re.starC jsWhitespace)
        (Re.cat (reOpt (Re.cat (litCI (("of").data)) (rePlusC jsWhitespace)))
          (litCI word))))

/-- Tail of the protein pattern. -/
def proteinTail : Re := unitTail (("protein").data)

/-- Tail of the carb pattern. -/
def carbTail : Re := unitTail (("carb").data)

/-- Tail of the fat pattern. -/
def fatTail : Re := unitTail (("fat").data)

/-- Match `(\d+) tail` anchored at the head of `cs`: the digit run is chosen
greedily (longest first, backtracking to shorter runs), and the captured
digits are returned as the number `parseInt` produces. -/
def matchNumAt (tail : Re) (cs : List Char) : Option Nat :=
  let run := (cs.takeWhile isDigitChar).length
  (List.range run).findSome? (fun j =>
    let i := run - j
    if tail.accept (cs.drop i) (fun _ => true) then some (digitsToNat (cs.take i)) else none)

/-- Embedding of `text.match(/(\d+) tail/i)`, keeping only the first capture
group converted by `parseInt`: the leftmost starting position wins. -/
def reFirst (tail : Re) : List Char → Option Nat
  | [] => none
  | c :: cs =>
    match matchNumAt tail (c :: cs) with
    | some n => some n
    | none => reFirst tail cs

example : reFirst calTail (("This meal has about 450 kcal and 20g protein").data) = some 450 := rfl
example : reFirst proteinTail (("This meal has about 450 kcal and 20g protein").data) = some 20 := rfl
example : reFirst carbTail (("This meal has about 450 kcal and 20g protein").data) = none := rfl
example : reFirst fatTail (("This meal has about 450 kcal and 20g protein").data) = none := rfl
example : reFirst calTail (("I cannot determine this.").data) = none := rfl
example : reFirst proteinTail (("12 grams of protein").data) = some 12 := rfl

/-- Embedding of `extractNutritionFromText` (ai-service.ts lines 188-211):
the regex fallback.  Calories are mandatory; protein, carbs and fat default
to 20, 30, 10; the explanation is the first 500 characters of the raw text;
confidence is fixed at 0.6; sources are empty. -/
def extractNutritionFromText (text : List Char) : Except APIError AIAnalysisResult :=
  match reFirst calTail text with
  | none =>
    Except.error (createAPIError
      ("Could not extract calorie information from AI response") ("PARSE_ERROR") false)
  | some cal =>
    Except.ok
      { calories := ((cal : ℕ) : ℚ)
        protein := ((((reFirst proteinTail text).getD 20 : ℕ)) : ℚ)
        carbs := ((((reFirst carbTail text).getD 30 : ℕ)) : ℚ)
        fat := ((((reFirst fatTail text).getD 10 : ℕ)) : ℚ)
        explanation := JVal.str (text.take 500)
        confidence := JVal.num (mkRat 6 10)
        sources := JVal.arr [] }

/-- The validation block of `parseAIResponse` (lines 161-168): all four
macro fields must be present and numbers, otherwise the thrown `Error` is
caught and the regex fallback runs. -/
def validateNutrition (v : JVal) : Option (ℚ × ℚ × ℚ × ℚ) :=
  match getField v (("calories").data), getField v (("protein").data),
        getField v (("carbs").data), getField v (("fat").data) with
  | some (JVal.num c), some (JVal.num p), some (JVal.num cb), some (JVal.num f) =>
    some (c, p, cb, f)
  | _, _, _, _ => none

/-- The JavaScript defaulting idiom `x || dflt` applied to a (possibly
absent) object field. -/
def jsOrDefault (fieldVal : Option JVal) (dflt : JVal) : JVal :=
  match fieldVal with
  | some w => if jsTruthy w then w else dflt
  | none => dflt

/-- Embedding of `parseAIResponse` (lines 156-183): strict JSON decode with
numeric-macro validation, rounding and defaulting on success; the regex
fallback on any decode or validation failure. -/
def parseAIResponse (content : List Char) : Except APIError AIAnalysisResult :=
  match jsonParse content with
  | some v =>
    match validateNutrition v with
    | some (c, p, cb, f) =>
      Except.ok
        { calories := jround c, protein := jround p, carbs := jround cb, fat := jround f
          explanation := jsOrDefault (getField v (("explanation").data))
            (JVal.str (("No explanation provided").data))
          confidence := jsOrDefault (getField v (("confidence").data)) (JVal.num (mkRat 8 10))
          sources := jsOrDefault (getField v (("sources").data)) (JVal.arr []) }
    | none => extractNutritionFromText content
  | none => extractNutritionFromText content

/-- The shapes of thrown JavaScript values that `handleAPIError`
discriminates between: an axios error (`axios.isAxiosError` true, carrying
a message, an optional transport code and, when a response was received,
its HTTP status), an `Error` instance, one of the service's own plain
`createAPIError` objects (which is neither an axios error nor an `Error`
instance), or any other thrown value. -/
inductive Thrown where
  | axios (message : String) (code : Option String) (status : Option Nat) : Thrown
  | jsError (message : String) : Thrown
  | apiObj (e : APIError) : Thrown
  | otherValue : Thrown
deriving DecidableEq

/-- Embedding of `handleAPIError` (ai-service.ts lines 216-279).  Note that
a thrown `createAPIError` object fails both the `axios.isAxiosError` and
the `instanceof Error` tests and therefore lands in the final catch-all
branch. -/
def handleAPIError : Thrown → APIError
  | Thrown.axios message code status =>
    if code == some ("ECONNABORTED") || code == some ("ETIMEDOUT") then
      createAPIError ("Request timed out. Please check your connection.") ("TIMEOUT") true
    else
      match status with
      | none =>
        createAPIError ("Network error. Please check your internet connection.")
          ("NETWORK_ERROR") true
      | some st =>
        if st == 401 then
          createAPIError ("Invalid API key. Please check your configuration.")
            ("AUTH_ERROR") false
        else if st == 429 then
          createAPIError ("Rate limit exceeded. Please wait a moment.") ("RATE_LIMIT") true
        else if 500 ≤ st then
          createAPIError ("AI service is temporarily unavailable.") ("SERVER_ERROR") true
        else
          createAPIError ("API error: " ++ message) ("API_ERROR") true
  | Thrown.jsError message => createAPIError message ("UNKNOWN_ERROR") false
  | Thrown.apiObj _ => createAPIError ("An unexpected error occurred") ("UNKNOWN_ERROR") false
  | Thrown.otherValue => createAPIError ("An unexpected error occurred") ("UNKNOWN_ERROR") false

/-- The two supported providers (`src/config/env.ts`). -/
inductive AIProvider where
  | openrouter : AIProvider
  | perplexity : AIProvider
deriving DecidableEq

/-- The resolved provider configuration returned by
`getCurrentProviderConfig` (env.ts lines 51-68). -/
structure ProviderConfig where
  provider : AIProvider
  apiKey : String
  model : String
  baseURL : String
deriving DecidableEq

/-- Embedding of `getCurrentProviderConfig`: the static `config` object of
env.ts selects a provider (its `aiProvider` field, a compile-time constant
toggled by the developer, here a parameter) and pairs it with that
provider's key (environment variable with a placeholder fallback), model
and base URL. -/
def getCurrentProviderConfig (aiProvider : AIProvider)
    (openRouterKey perplexityKey : Option String) : ProviderConfig :=
  match aiProvider with
  | AIProvider.openrouter =>
    { provider := AIProvider.openrouter
      apiKey := openRouterKey.getD ("YOUR_OPENROUTER_API_KEY")
      model := "google/gemini-2.0-flash-exp:free"
      baseURL := "https://openrouter.ai/api/v1" }
  | AIProvider.perplexity =>
    { provider := AIProvider.perplexity
      apiKey := perplexityKey.getD ("YOUR_PERPLEXITY_API_KEY")
      model := "llama-3.1-sonar-small-128k-online"
      baseURL := "https://api.perplexity.ai" }

/-- Outcome oracle for the single `axios.post` a provider function makes:
either an envelope was received (assistant content
`response.data.choices[0]?.message?.content`, possibly absent, and the
`response.data.citations || []` list), or a JavaScript value was thrown.
The request options in the source carry headers and a 30s timeout only —
no abort signal is ever attached. -/
inductive HttpOutcome where
  | resp (content : Option (List Char)) (citations : List (List Char)) : HttpOutcome
  | thrown (t : Thrown) : HttpOutcome
deriving Inhabited

/-- Embedding of `analyzeWithOpenRouter` (lines 54-96): dispatch, then the
falsy-content check (`EMPTY_RESPONSE`), then `parseAIResponse`.  Errors
propagate as thrown values: the service's own errors are plain objects. -/
def analyzeWithOpenRouter (_mealText : List Char) (http : HttpOutcome) :
    Except Thrown AIAnalysisResult :=
  match http with
  | HttpOutcome.thrown t => Except.error t
  | HttpOutcome.resp content _ =>
    match content with
    | none =>
      Except.error (Thrown.apiObj (createAPIError ("No response from AI") ("EMPTY_RESPONSE") true))
    | some cs =>
      if cs.isEmpty then
        Except.error (Thrown.apiObj (createAPIError ("No response from AI") ("EMPTY_RESPONSE") true))
      else
        match parseAIResponse cs with
        | Except.ok r => Except.ok r
        | Except.error e => Except.error (Thrown.apiObj e)

/-- Embedding of `analyzeWithPerplexity` (lines 101-151): as OpenRouter,
plus the citation backfill — when citations are present and
`!result.sources || result.sources.length === 0`, the envelope's citations
replace the result's sources. -/
def analyzeWithPerplexity (_mealText : List Char) (http : HttpOutcome) :
    Except Thrown AIAnalysisResult :=
  match http with
  | HttpOutcome.thrown t => Except.error t
  | HttpOutcome.resp content citations =>
    match content with
    | none =>
      Except.error (Thrown.apiObj (createAPIError ("No response from AI") ("EMPTY_RESPONSE") true))
    | some cs =>
      if cs.isEmpty then
        Except.error (Thrown.apiObj (createAPIError ("No response from AI") ("EMPTY_RESPONSE") true))
      else
        match parseAIResponse cs with
        | Except.error e => Except.error (Thrown.apiObj e)
        | Except.ok r =>
          if !citations.isEmpty && (!jsTruthy r.sources || jvalLenIsZero r.sources) then
            Except.ok { r with sources := JVal.arr (citations.map JVal.str) }
          else
            Except.ok r

/-- The guard `!mealText || mealText.trim().length === 0` (line 31): true
exactly when the text consists of JS whitespace only (the empty string
included). -/
def isEmptyMealText (s : List Char) : Bool :=
  s.all jsWhitespace

/-- The provider dispatch inside the `try` block of `analyzeNutrition`
(lines 38-42): the branch on `providerConfig.provider`. -/
def runProvider (provider : AIProvider) (mealText : List Char) (http : HttpOutcome) :
    Except Thrown AIAnalysisResult :=
  match provider with
  | AIProvider.openrouter => analyzeWithOpenRouter mealText http
  | AIProvider.perplexity => analyzeWithPerplexity mealText http

/-- Embedding of `analyzeNutrition` (lines 28-49).  The second component
counts HTTP dispatches: the empty-input rejection happens before
`getCurrentProviderConfig` and the `try` block, so no request is made;
otherwise the chosen provider function posts exactly once.  The empty-input
error is thrown outside the `try` and reaches the caller unwrapped; every
error thrown inside the `try` is converted by `handleAPIError`. -/
def analyzeNutrition (provider : AIProvider) (mealText : List Char) (http : HttpOutcome) :
    Except APIError AIAnalysisResult × Nat :=
  if isEmptyMealText mealText then
    (Except.error (createAPIError ("Meal text cannot be empty") ("EMPTY_INPUT") false), 0)
  else
    (match runProvider provider mealText http with
     | Except.ok r => Except.ok r
     | Except.error t => Except.error (handleAPIError t), 1)

/-! Debounce coordinator (`createDebouncedAnalyzer`, lines 300-327).

The returned closure owns one pending `setTimeout` handle.  A call made
while a timer is pending clears it (`clearTimeout`), so a pending timer
fires exactly when no further call arrives before its deadline; the last
timer always fires.  The `AbortController` the source allocates inside the
timer callback is aborted by the next call, but its signal is never passed
to the HTTP request (`analyzeNutrition` takes only the meal text, and the
axios options carry headers and a timeout only), so aborting it has no
observable effect: a fired timer's async callback always runs
`analyzeNutrition` to completion and then resolves or rejects that call's
promise.  A call whose timer is cleared never runs its callback, so its
promise never settles.

The model processes the calls of one analyzer instance in time order:
`debounceFires` marks, per call, whether its timer fires (deadline
`tᵢ + delay`, cleared when call `i+1` arrives strictly earlier; a timer
whose deadline coincides with the next call is taken to fire first). -/
def debounceFires (delayMs : Nat) : List Nat → List Bool
  | [] => []
  | [_] => [true]
  | t1 :: t2 :: ts => decide (t1 + delayMs ≤ t2) :: debounceFires delayMs (t2 :: ts)

/-- The meal texts actually dispatched over HTTP, in order: one per fired
timer. -/
def dispatchedTexts (delayMs : Nat) (calls : List (Nat × List Char)) : List (List Char) :=
  ((calls.zip (debounceFires delayMs (calls.map Prod.fst))).filterMap
    (fun p => if p.2 then some p.1.2 else none))

/-- Whether the promise returned by the i-th call ever settles: exactly the
calls whose timer fires (see the module comment — no abort signal reaches
the HTTP layer, so a dispatched request's outcome always settles its own
call's promise). -/
def promiseSettles (delayMs : Nat) (times : List Nat) (i : Nat) : Bool :=
  (debounceFires delayMs times).getD i false

/-- The ten error kinds of the taxonomy (spec section 4.5). -/
def errorKinds : List String :=
  ["TIMEOUT", "NETWORK_ERROR", "AUTH_ERROR", "RATE_LIMIT", "SERVER_ERROR",
   "API_ERROR", "EMPTY_RESPONSE", "EMPTY_INPUT", "PARSE_ERROR", "UNKNOWN_ERROR"]

/-- Modelled from the spec: the error-classification table of claim C6, row
by row in the claim's order — aborted/timed-out connection, absent HTTP
response, status 401, status 429, status at least 500, other HTTP errors,
and every unmatched thrown value — paired with the claimed retryability. -/
def classifyErrorSpec : Thrown → String × Bool
  | Thrown.axios _ code status =>
    if code == some ("ECONNABORTED") || code == some ("ETIMEDOUT") then ("TIMEOUT", true)
    else
      match status with
      | none => ("NETWORK_ERROR", true)
      | some st =>
        if st == 401 then ("AUTH_ERROR", false)
        else if st == 429 then ("RATE_LIMIT", true)
        else if 500 ≤ st then ("SERVER_ERROR", true)
        else ("API_ERROR", true)
  | _ => ("UNKNOWN_ERROR", false)

/-! Helper lemmas shared by several claims. -/

/-- Every error built by the classifier carries one of the ten kinds. -/
theorem handleAPIError_code_mem (t : Thrown) : (handleAPIError t).code ∈ errorKinds := by
  cases t with
  | axios m c s =>
    simp only [handleAPIError]
    split
    · exact (by decide : ("TIMEOUT" : String) ∈ errorKinds)
    · split
      · exact (by decide : ("NETWORK_ERROR" : String) ∈ errorKinds)
      · split
        · exact (by decide : ("AUTH_ERROR" : String) ∈ errorKinds)
        · split
          · exact (by decide : ("RATE_LIMIT" : String) ∈ errorKinds)
          · split
            · exact (by decide : ("SERVER_ERROR" : String) ∈ errorKinds)
            · exact (by decide : ("API_ERROR" : String) ∈ errorKinds)
  | jsError m => exact (by decide : ("UNKNOWN_ERROR" : String) ∈ errorKinds)
  | apiObj e => exact (by decide : ("UNKNOWN_ERROR" : String) ∈ errorKinds)
  | otherValue => exact (by decide : ("UNKNOWN_ERROR" : String) ∈ errorKinds)

/-- A result of the regex fallback has natural-number macros, confidence
0.6 and empty sources. -/
theorem extract_ok_fields (cs : List Char) (r : AIAnalysisResult)
    (h : extractNutritionFromText cs = Except.ok r) :
    (∃ a : ℕ, r.calories = (a : ℚ)) ∧ (∃ a : ℕ, r.protein = (a : ℚ)) ∧
    (∃ a : ℕ, r.carbs = (a : ℚ)) ∧ (∃ a : ℕ, r.fat = (a : ℚ)) ∧
    r.confidence = JVal.num (mkRat 6 10) ∧ r.sources = JVal.arr [] := by
  unfold extractNutritionFromText at h
  split at h
  · exact (Except.noConfusion h)
  · obtain rfl : _ = r := Except.ok.inj h
    exact ⟨⟨_, rfl⟩, ⟨_, rfl⟩, ⟨_, rfl⟩, ⟨_, rfl⟩, rfl, rfl⟩

/-- A result of the full parser has integral macro fields (rounded on the
JSON path, digit runs on the fallback path). -/
theorem parse_ok_intFields (cs : List Char) (r : AIAnalysisResult)
    (h : parseAIResponse cs = Except.ok r) :
    (∃ z : ℤ, r.calories = (z : ℚ)) ∧ (∃ z : ℤ, r.protein = (z : ℚ)) ∧
    (∃ z : ℤ, r.carbs = (z : ℚ)) ∧ (∃ z : ℤ, r.fat = (z : ℚ)) := by
  have ofExtract : extractNutritionFromText cs = Except.ok r →
      (∃ z : ℤ, r.calories = (z : ℚ)) ∧ (∃ z : ℤ, r.protein = (z : ℚ)) ∧
      (∃ z : ℤ, r.carbs = (z : ℚ)) ∧ (∃ z : ℤ, r.fat = (z : ℚ)) := by
    intro hx
    obtain ⟨⟨a, ha⟩, ⟨b, hb⟩, ⟨c, hc⟩, ⟨d, hd⟩, -, -⟩ := extract_ok_fields cs r hx
    exact ⟨⟨a, by rw [ha]; norm_cast⟩, ⟨b, by rw [hb]; norm_cast⟩,
           ⟨c, by rw [hc]; norm_cast⟩, ⟨d, by rw [hd]; norm_cast⟩⟩
  unfold parseAIResponse at h
  split at h
  · split at h
    · obtain rfl : _ = r := Except.ok.inj h
      exact ⟨⟨_, rfl⟩, ⟨_, rfl⟩, ⟨_, rfl⟩, ⟨_, rfl⟩⟩
    · exact ofExtract h
  · exact ofExtract h

/-- A successful OpenRouter analysis is a successful parse of the assistant
content. -/
theorem openrouter_ok_intFields (mt : List Char) (http : HttpOutcome) (r : AIAnalysisResult)
    (h : analyzeWithOpenRouter mt http = Except.ok r) :
    (∃ z : ℤ, r.calories = (z : ℚ)) ∧ (∃ z : ℤ, r.protein = (z : ℚ)) ∧
    (∃ z : ℤ, r.carbs = (z : ℚ)) ∧ (∃ z : ℤ, r.fat = (z : ℚ)) := by
  unfold analyzeWithOpenRouter at h
  split at h
  · exact (Except.noConfusion h)
  · split at h
    · exact (Except.noConfusion h)
    · split at h
      · exact (Except.noConfusion h)
      · rename_i heq
        split at h
        · obtain rfl : _ = r := Except.ok.inj h
          rename_i hok
          exact parse_ok_intFields _ _ hok
        · exact (Except.noConfusion h)

/-- A successful Perplexity analysis only ever rewrites `sources`; its macro
fields come from a successful parse. -/
theorem perplexity_ok_intFields (mt : List Char) (http : HttpOutcome) (r : AIAnalysisResult)
    (h : analyzeWithPerplexity mt http = Except.ok r) :
    (∃ z : ℤ, r.calories = (z : ℚ)) ∧ (∃ z : ℤ, r.protein = (z : ℚ)) ∧
    (∃ z : ℤ, r.carbs = (z : ℚ)) ∧ (∃ z : ℤ, r.fat = (z : ℚ)) := by
  unfold analyzeWithPerplexity at h
  split at h
  · exact (Except.noConfusion h)
  · split at h
    · exact (Except.noConfusion h)
    · split at h
      · exact (Except.noConfusion h)
      · split at h
        · exact (Except.noConfusion h)
        · rename_i hok
          split at h
          · obtain rfl : _ = r := Except.ok.inj h
            have hfields := parse_ok_intFields _ _ hok
            exact hfields
          · obtain rfl : _ = r := Except.ok.inj h
            have hfields := parse_ok_intFields _ _ hok
            exact hfields

/-! The claims. -/

/-- C3: empty or whitespace-only meal text always rejects with code
`EMPTY_INPUT`, retryable false, and performs no HTTP dispatch (the second
component counts dispatches; the result is the same for every provider and
every network behaviour, which is only reachable after this guard). -/
theorem emptyInput_rejects_without_dispatch (provider : AIProvider) (mealText : List Char)
    (http : HttpOutcome) (h : isEmptyMealText mealText = true) :
    analyzeNutrition provider mealText http =
      (Except.error (createAPIError ("Meal text cannot be empty") ("EMPTY_INPUT") false), 0) := by
  simp [analyzeNutrition, h]

/-- C3 witness: a whitespace-only input, evaluated concretely. -/
theorem emptyInput_rejects_without_dispatch_witness :
    analyzeNutrition AIProvider.openrouter ((" \t ").data) (HttpOutcome.resp none []) =
      (Except.error (createAPIError ("Meal text cannot be empty") ("EMPTY_INPUT") false), 0) :=
  emptyInput_rejects_without_dispatch AIProvider.openrouter ((" \t ").data)
    (HttpOutcome.resp none []) (by decide)

/-- C2 (what the code actually does at the claim's two scenarios): a 200
response whose text yields no calorie figure, and a 200 response with empty
assistant content, both reject with `UNKNOWN_ERROR`, retryable false — the
`PARSE_ERROR` and `EMPTY_RESPONSE` objects thrown inside the `try` block
are plain objects, so `handleAPIError` reclassifies them in its catch-all
branch. -/
theorem parseFailure_and_emptyResponse_surface_unknown :
    (analyzeNutrition AIProvider.openrouter (("chicken salad").data)
        (HttpOutcome.resp (some (("I cannot determine this.").data)) [])).1 =
      Except.error (createAPIError ("An unexpected error occurred") ("UNKNOWN_ERROR") false) ∧
    (analyzeNutrition AIProvider.openrouter (("chicken salad").data)
        (HttpOutcome.resp none [])).1 =
      Except.error (createAPIError ("An unexpected error occurred") ("UNKNOWN_ERROR") false) :=
  ⟨rfl, rfl⟩

/-- C5 (what the code actually does): with an 800ms window, a second call at
t = 900ms arrives after the first call's timer fired at t = 800ms; the first
request was dispatched, and — since no abort signal is ever passed to the
HTTP call — it runs to completion and settles the first call's promise. -/
theorem staleRequest_not_cancelled :
    dispatchedTexts 800 [(0, ("first meal").data), (900, ("second meal").data)] =
      [("first meal").data, ("second meal").data] ∧
    promiseSettles 800 [0, 900] 0 = true :=
  ⟨rfl, rfl⟩

/-- C6: the error classifier realises, kind for kind and retryability for
retryability, the table stated in the claim (timeout, no response, 401,
429, 5xx, other HTTP error, catch-all), totally on every thrown shape. -/
theorem handleAPIError_matches_claimTable (t : Thrown) :
    ((handleAPIError t).code, (handleAPIError t).retryable) = classifyErrorSpec t := by
  cases t with
  | axios m c s =>
    by_cases htm : (c == some ("ECONNABORTED") || c == some ("ETIMEDOUT")) = true
    · simp [handleAPIError, classifyErrorSpec, htm, createAPIError]
    · cases s with
      | none => simp [handleAPIError, classifyErrorSpec, htm, createAPIError]
      | some st =>
        by_cases h1 : (st == 401) = true
        · simp [handleAPIError, classifyErrorSpec, htm, h1, createAPIError]
        · by_cases h2 : (st == 429) = true
          · simp [handleAPIError, classifyErrorSpec, htm, h1, h2, createAPIError]
          · by_cases h3 : 500 ≤ st
            · simp [handleAPIError, classifyErrorSpec, htm, h1, h2, h3, createAPIError]
            · simp [handleAPIError, classifyErrorSpec, htm, h1, h2, h3, createAPIError]
  | jsError m => rfl
  | apiObj e => rfl
  | otherValue => rfl

/-- C6 witness: the classification table applied at a concrete 429 axios
error. -/
theorem handleAPIError_matches_claimTable_witness :
    ((handleAPIError (Thrown.axios ("Too Many Requests") none (some 429))).code,
     (handleAPIError (Thrown.axios ("Too Many Requests") none (some 429))).retryable) =
      classifyErrorSpec (Thrown.axios ("Too Many Requests") none (some 429)) :=
  handleAPIError_matches_claimTable (Thrown.axios ("Too Many Requests") none (some 429))

/-- The JSON body used to refute the original C1 bounds. -/
def c1BadJson : List Char :=
  ("\x7b\"calories\":-100,\"protein\":1,\"carbs\":1,\"fat\":1,\"confidence\":2\x7d").data

/-- C1 counterexample: for the non-empty meal text `"apple"` and a
well-formed 200 response, the analysis resolves — but with calories −100
and confidence 2, refuting the claimed non-negativity of the macro fields
and the claimed [0,1] bound on confidence. -/
theorem analyzeNutrition_canResolve_outOfBounds :
    (analyzeNutrition AIProvider.openrouter (("apple").data)
        (HttpOutcome.resp (some c1BadJson) [])).1 =
      Except.ok
        { calories := -100, protein := 1, carbs := 1, fat := 1
          explanation := JVal.str (("No explanation provided").data)
          confidence := JVal.num 2, sources := JVal.arr [] } ∧
    (-100 : ℚ) < 0 ∧ ¬((2 : ℚ) ≤ 1) :=
  ⟨rfl, by norm_num, by norm_num⟩

/-- C1 (amended): for every non-empty, non-whitespace-only meal text, the
analysis either resolves with all four macro fields integral, or rejects
with an error whose code is one of the ten defined kinds. -/
theorem nonEmpty_analysis_integral_or_knownKind (provider : AIProvider) (mealText : List Char)
    (http : HttpOutcome) (h : isEmptyMealText mealText = false) :
    (∀ r, (analyzeNutrition provider mealText http).1 = Except.ok r →
      (∃ z : ℤ, r.calories = (z : ℚ)) ∧ (∃ z : ℤ, r.protein = (z : ℚ)) ∧
      (∃ z : ℤ, r.carbs = (z : ℚ)) ∧ (∃ z : ℤ, r.fat = (z : ℚ))) ∧
    (∀ e, (analyzeNutrition provider mealText http).1 = Except.error e →
      e.code ∈ errorKinds) := by
  have hne : ¬ isEmptyMealText mealText = true := by simp [h]
  have hrun : ∀ r, runProvider provider mealText http = Except.ok r →
      (∃ z : ℤ, r.calories = (z : ℚ)) ∧ (∃ z : ℤ, r.protein = (z : ℚ)) ∧
      (∃ z : ℤ, r.carbs = (z : ℚ)) ∧ (∃ z : ℤ, r.fat = (z : ℚ)) := by
    intro r hr
    cases provider with
    | openrouter => exact openrouter_ok_intFields mealText http r hr
    | perplexity => exact perplexity_ok_intFields mealText http r hr
  constructor
  · intro r hr
    unfold analyzeNutrition at hr
    rw [if_neg hne] at hr
    cases hA : runProvider provider mealText http with
    | ok r0 =>
      rw [hA] at hr
      dsimp only at hr
      obtain rfl : r0 = r := Except.ok.inj hr
      exact hrun r0 hA
    | error t =>
      rw [hA] at hr
      dsimp only at hr
      exact (Except.noConfusion hr)
  · intro e he
    unfold analyzeNutrition at he
    rw [if_neg hne] at he
    cases hA : runProvider provider mealText http with
    | ok r0 =>
      rw [hA] at he
      dsimp only at he
      exact (Except.noConfusion he)
    | error t =>
      rw [hA] at he
      dsimp only at he
      obtain rfl : handleAPIError t = e := Except.error.inj he
      exact handleAPIError_code_mem t

/-- C1 witness: the amended statement applied at a concrete rate-limited
call. -/
theorem nonEmpty_analysis_integral_or_knownKind_witness :
    (createAPIError ("Rate limit exceeded. Please wait a moment.") ("RATE_LIMIT") true).code
      ∈ errorKinds :=
  (nonEmpty_analysis_integral_or_knownKind AIProvider.openrouter (("apple").data)
      (HttpOutcome.thrown (Thrown.axios ("Request failed with status code 429") none (some 429)))
      (by decide)).2
    (createAPIError ("Rate limit exceeded. Please wait a moment.") ("RATE_LIMIT") true) rfl

/-- The spec's JSON-path test vector. -/
def c7text : List Char :=
  ("\x7b\"calories\":452.6,\"protein\":23.1,\"carbs\":33,\"fat\":25,\"confidence\":0.9,\"sources\":[\"USDA\"]\x7d").data

/-- The value `JSON.parse` produces on `c7text`. -/
def c7val : JVal :=
  JVal.obj
    [(("calories").data, JVal.num (mkRat 4526 10)),
     (("protein").data, JVal.num (mkRat 231 10)),
     (("carbs").data, JVal.num 33),
     (("fat").data, JVal.num 25),
     (("confidence").data, JVal.num (mkRat 9 10)),
     (("sources").data, JVal.arr [JVal.str (("USDA").data)])]

/-- C7: on a strict JSON decode with numeric macros, the parser rounds the
four macro fields, keeps a truthy confidence, and applies the documented
defaults (placeholder explanation when absent, 0.8 confidence when absent
or falsy, empty sources when absent); and on the spec's test vector it
produces exactly calories 453, protein 23, carbs 33, fat 25, confidence
0.9 and sources ["USDA"]. -/
theorem jsonPath_rounds_and_defaults :
    (∀ cs v c p cb f, jsonParse cs = some v →
      getField v (("calories").data) = some (JVal.num c) →
      getField v (("protein").data) = some (JVal.num p) →
      getField v (("carbs").data) = some (JVal.num cb) →
      getField v (("fat").data) = some (JVal.num f) →
      ∃ r, parseAIResponse cs = Except.ok r ∧
        r.calories = jround c ∧ r.protein = jround p ∧
        r.carbs = jround cb ∧ r.fat = jround f ∧
        (getField v (("explanation").data) = none →
          r.explanation = JVal.str (("No explanation provided").data)) ∧
        (∀ w, getField v (("confidence").data) = some w → jsTruthy w = true →
          r.confidence = w) ∧
        (getField v (("confidence").data) = none → r.confidence = JVal.num (mkRat 8 10)) ∧
        (∀ w, getField v (("confidence").data) = some w → jsTruthy w = false →
          r.confidence = JVal.num (mkRat 8 10)) ∧
        (getField v (("sources").data) = none → r.sources = JVal.arr [])) ∧
    parseAIResponse c7text = Except.ok
      { calories := 453, protein := 23, carbs := 33, fat := 25
        explanation := JVal.str (("No explanation provided").data)
        confidence := JVal.num (mkRat 9 10)
        sources := JVal.arr [JVal.str (("USDA").data)] } := by
  constructor
  · intro cs v c p cb f hjson hc hp hcb hf
    have hval : validateNutrition v = some (c, p, cb, f) := by
      unfold validateNutrition
      rw [hc, hp, hcb, hf]
    refine ⟨{ calories := jround c, protein := jround p, carbs := jround cb, fat := jround f
              explanation := jsOrDefault (getField v (("explanation").data))
                (JVal.str (("No explanation provided").data))
              confidence := jsOrDefault (getField v (("confidence").data))
                (JVal.num (mkRat 8 10))
              sources := jsOrDefault (getField v (("sources").data)) (JVal.arr []) },
      ?_, rfl, rfl, rfl, rfl, ?_, ?_, ?_, ?_, ?_⟩
    · simp [parseAIResponse, hjson, hval]
    · intro h0; simp [jsOrDefault, h0]
    · intro w hw ht; simp [jsOrDefault, hw, ht]
    · intro h0; simp [jsOrDefault, h0]
    · intro w hw ht; simp [jsOrDefault, hw, ht]
    · intro h0; simp [jsOrDefault, h0]
  · rfl

/-- C7 witness: the general statement applied to the spec's test vector. -/
theorem jsonPath_rounds_and_defaults_witness :
    ∃ r, parseAIResponse c7text = Except.ok r ∧
      r.calories = jround (mkRat 4526 10) ∧ r.protein = jround (mkRat 231 10) ∧
      r.carbs = jround 33 ∧ r.fat = jround 25 ∧
      (getField c7val (("explanation").data) = none →
        r.explanation = JVal.str (("No explanation provided").data)) ∧
      (∀ w, getField c7val (("confidence").data) = some w → jsTruthy w = true →
        r.confidence = w) ∧
      (getField c7val (("confidence").data) = none → r.confidence = JVal.num (mkRat 8 10)) ∧
      (∀ w, getField c7val (("confidence").data) = some w → jsTruthy w = false →
        r.confidence = JVal.num (mkRat 8 10)) ∧
      (getField c7val (("sources").data) = none → r.sources = JVal.arr []) :=
  jsonPath_rounds_and_defaults.1 c7text c7val (mkRat 4526 10) (mkRat 231 10) 33 25
    rfl rfl rfl rfl rfl

/-- The spec's regex-fallback test vector. -/
def c8text : List Char := ("This meal has about 450 kcal and 20g protein").data

/-- A second non-JSON nutrition text, used as the C8 witness input. -/
def c8wtext : List Char := ("Dinner was roughly 320 calories with 15g protein").data

/-- C8: when the strict decode fails (no JSON value, or a macro field
missing or non-numeric) and the calorie pattern matches, the parser
returns the matched calories; protein, carbs and fat from their patterns
or the defaults 20, 30, 10; the first 500 characters as explanation;
confidence 0.6; and no sources.  On the spec's test vector this gives
calories 450, protein 20, carbs 30, fat 10, confidence 0.6. -/
theorem regexFallback_extracts :
    (∀ cs n,
      (jsonParse cs = none ∨ (∃ v, jsonParse cs = some v ∧ validateNutrition v = none)) →
      reFirst calTail cs = some n →
      parseAIResponse cs = Except.ok
        { calories := ((n : ℕ) : ℚ)
          protein := ((((reFirst proteinTail cs).getD 20 : ℕ)) : ℚ)
          carbs := ((((reFirst carbTail cs).getD 30 : ℕ)) : ℚ)
          fat := ((((reFirst fatTail cs).getD 10 : ℕ)) : ℚ)
          explanation := JVal.str (cs.take 500)
          confidence := JVal.num (mkRat 6 10)
          sources := JVal.arr [] }) ∧
    parseAIResponse c8text = Except.ok
      { calories := 450, protein := 20, carbs := 30, fat := 10
        explanation := JVal.str c8text
        confidence := JVal.num (mkRat 6 10)
        sources := JVal.arr [] } := by
  constructor
  · intro cs n hdecode hcal
    rcases hdecode with hnone | ⟨v, hv, hval⟩
    · simp [parseAIResponse, hnone, extractNutritionFromText, hcal]
    · simp [parseAIResponse, hv, hval, extractNutritionFromText, hcal]
  · rfl

/-- C8 witness: the general statement applied to a concrete non-JSON
response. -/
theorem regexFallback_extracts_witness :
    parseAIResponse c8wtext = Except.ok
      { calories := ((320 : ℕ) : ℚ)
        protein := ((((reFirst proteinTail c8wtext).getD 20 : ℕ)) : ℚ)
        carbs := ((((reFirst carbTail c8wtext).getD 30 : ℕ)) : ℚ)
        fat := ((((reFirst fatTail c8wtext).getD 10 : ℕ)) : ℚ)
        explanation := JVal.str (c8wtext.take 500)
        confidence := JVal.num (mkRat 6 10)
        sources := JVal.arr [] } :=
  regexFallback_extracts.1 c8wtext 320 (Or.inl rfl) rfl

/-- C9: for a successful Perplexity analysis, when the parsed result's
sources are falsy or have length zero and the envelope carries citations,
the result's sources become exactly the citation list; when the parsed
result already carries (truthy, non-empty) sources, the result is returned
unchanged. -/
theorem perplexity_citation_backfill (mt cs : List Char) (citations : List (List Char))
    (r0 : AIAnalysisResult) (hcs : cs.isEmpty = false)
    (hp : parseAIResponse cs = Except.ok r0) :
    (citations.isEmpty = false →
      (!jsTruthy r0.sources || jvalLenIsZero r0.sources) = true →
      analyzeWithPerplexity mt (HttpOutcome.resp (some cs) citations) =
        Except.ok { r0 with sources := JVal.arr (citations.map JVal.str) }) ∧
    ((!jsTruthy r0.sources || jvalLenIsZero r0.sources) = false →
      analyzeWithPerplexity mt (HttpOutcome.resp (some cs) citations) = Except.ok r0) := by
  constructor
  · intro hcit hsrc
    simp [analyzeWithPerplexity, hcs, hp, hcit, hsrc]
  · intro hsrc
    simp [analyzeWithPerplexity, hcs, hp, hsrc]

/-- A JSON body without a sources field, for the C9 witness. -/
def c9text : List Char :=
  ("\x7b\"calories\":100,\"protein\":2,\"carbs\":3,\"fat\":4\x7d").data

/-- C9 witness: a parse without sources plus a one-element citation list
yields a result whose sources are that citation list. -/
theorem perplexity_citation_backfill_witness :
    analyzeWithPerplexity (("grilled cheese").data)
        (HttpOutcome.resp (some c9text) [(("nutrition.gov").data)]) =
      Except.ok
        { calories := 100, protein := 2, carbs := 3, fat := 4
          explanation := JVal.str (("No explanation provided").data)
          confidence := JVal.num (mkRat 8 10)
          sources := JVal.arr [JVal.str (("nutrition.gov").data)] } := by
  have h := (perplexity_citation_backfill (("grilled cheese").data) c9text
      [(("nutrition.gov").data)]
      { calories := 100, protein := 2, carbs := 3, fat := 4
        explanation := JVal.str (("No explanation provided").data)
        confidence := JVal.num (mkRat 8 10)
        sources := JVal.arr [] } rfl rfl).1 rfl rfl
  exact h

/-- C10: every result the regex fallback produces has natural-number (hence
non-negative integer) macro fields and confidence exactly 0.6; therefore a
parse result with a negative macro field or a numeric confidence outside
[0,1] can only have come from the strict-JSON decode path. -/
theorem regexFallback_invariants :
    (∀ cs r, extractNutritionFromText cs = Except.ok r →
      (∃ a : ℕ, r.calories = (a : ℚ)) ∧ (∃ a : ℕ, r.protein = (a : ℚ)) ∧
      (∃ a : ℕ, r.carbs = (a : ℚ)) ∧ (∃ a : ℕ, r.fat = (a : ℚ)) ∧
      r.confidence = JVal.num (mkRat 6 10)) ∧
    (∀ cs r, parseAIResponse cs = Except.ok r →
      (r.calories < 0 ∨ r.protein < 0 ∨ r.carbs < 0 ∨ r.fat < 0 ∨
        (∃ q : ℚ, r.confidence = JVal.num q ∧ (q < 0 ∨ 1 < q))) →
      ∃ v, jsonParse cs = some v ∧ validateNutrition v ≠ none) := by
  have hbounds : ∀ cs r, extractNutritionFromText cs = Except.ok r →
      ¬(r.calories < 0 ∨ r.protein < 0 ∨ r.carbs < 0 ∨ r.fat < 0 ∨
        (∃ q : ℚ, r.confidence = JVal.num q ∧ (q < 0 ∨ 1 < q))) := by
    intro cs r hx hbad
    obtain ⟨⟨a, ha⟩, ⟨b, hb⟩, ⟨c, hc⟩, ⟨d, hd⟩, hconf, -⟩ := extract_ok_fields cs r hx
    rcases hbad with hneg | hneg | hneg | hneg | ⟨q, hq, hout⟩
    · rw [ha] at hneg; exact absurd hneg (not_lt.mpr (Nat.cast_nonneg a))
    · rw [hb] at hneg; exact absurd hneg (not_lt.mpr (Nat.cast_nonneg b))
    · rw [hc] at hneg; exact absurd hneg (not_lt.mpr (Nat.cast_nonneg c))
    · rw [hd] at hneg; exact absurd hneg (not_lt.mpr (Nat.cast_nonneg d))
    · rw [hconf] at hq
      obtain rfl : mkRat 6 10 = q := JVal.num.inj hq
      rcases hout with h6 | h6
      · rw [Rat.mkRat_eq_div] at h6; norm_num at h6
      · rw [Rat.mkRat_eq_div] at h6; norm_num at h6
  constructor
  · intro cs r h
    obtain ⟨h1, h2, h3, h4, h5, -⟩ := extract_ok_fields cs r h
    exact ⟨h1, h2, h3, h4, h5⟩
  · intro cs r h hbad
    unfold parseAIResponse at h
    split at h
    · rename_i v hveq
      split at h
      · rename_i q hvala
        exact ⟨v, hveq, by rw [hvala]; exact Option.noConfusion⟩
      · exact absurd hbad (hbounds cs r h)
    · exact absurd hbad (hbounds cs r h)

/-- C10 witness: the fallback invariant evaluated at a concrete text. -/
theorem regexFallback_invariants_witness :
    ({ calories := ((72 : ℕ) : ℚ), protein := ((20 : ℕ) : ℚ)
       carbs := ((30 : ℕ) : ℚ), fat := ((10 : ℕ) : ℚ)
       explanation := JVal.str ((("Only about 72 calories here").data).take 500)
       confidence := JVal.num (mkRat 6 10)
       sources := JVal.arr [] } : AIAnalysisResult).confidence = JVal.num (mkRat 6 10) :=
  (regexFallback_invariants.1 (("Only about 72 calories here").data)
    { calories := ((72 : ℕ) : ℚ), protein := ((20 : ℕ) : ℚ)
      carbs := ((30 : ℕ) : ℚ), fat := ((10 : ℕ) : ℚ)
      explanation := JVal.str ((("Only about 72 calories here").data).take 500)
      confidence := JVal.num (mkRat 6 10)
      sources := JVal.arr [] } rfl).2.2.2.2

/-- C4: for any burst of calls each arriving strictly before the previous
call's deadline, exactly one dispatch happens, carrying the last call's
text, and no superseded call's timer fires — so no superseded promise ever
settles. -/
theorem debounce_lastCallWins (delayMs : Nat) :
    ∀ (calls : List (Nat × List Char)) (hne : calls ≠ []),
      List.Chain' (fun a b => b < a + delayMs) (calls.map Prod.fst) →
      dispatchedTexts delayMs calls = [(calls.getLast hne).2] ∧
      ∀ i, i + 1 < calls.length →
        promiseSettles delayMs (calls.map Prod.fst) i = false := by
  intro calls
  induction calls with
  | nil => intro hne _; exact absurd rfl hne
  | cons x tl ih =>
    intro hne hw
    cases tl with
    | nil =>
      refine ⟨rfl, ?_⟩
      intro i hi
      rw [List.length_singleton] at hi
      exact absurd hi (by omega)
    | cons y tl2 =>
      have hmap : (x :: y :: tl2).map Prod.fst = x.1 :: y.1 :: tl2.map Prod.fst := rfl
      rw [hmap, List.chain'_cons] at hw
      obtain ⟨hxy, hw2⟩ := hw
      have hfire : (decide (x.1 + delayMs ≤ y.1)) = false := by
        simp only [decide_eq_false_iff_not]
        omega
      have hne2 : y :: tl2 ≠ [] := List.cons_ne_nil y tl2
      have ihres := ih hne2 hw2
      constructor
      · have hstep : dispatchedTexts delayMs (x :: y :: tl2) =
            dispatchedTexts delayMs (y :: tl2) := by
          simp [dispatchedTexts, debounceFires, hfire]
        rw [hstep, ihres.1]
        rw [List.getLast_cons hne2]
      · intro i hi
        cases i with
        | zero =>
          simp [promiseSettles, debounceFires, hfire]
        | succ j =>
          have hj := ihres.2 j (by simp only [List.length_cons] at hi ⊢; omega)
          simpa [promiseSettles, debounceFires] using hj

/-- C4 witness: three calls at 0, 100 and 200 ms under an 800 ms window —
one dispatch, with the third call's text, and the first two promises never
settle. -/
theorem debounce_lastCallWins_witness :
    dispatchedTexts 800 [(0, ("a").data), (100, ("b").data), (200, ("c").data)] =
      [("c").data] ∧
    promiseSettles 800 [0, 100, 200] 0 = false ∧
    promiseSettles 800 [0, 100, 200] 1 = false := by
  have h := debounce_lastCallWins 800
    [(0, ("a").data), (100, ("b").data), (200, ("c").data)]
    (by simp)
    (by
      simp only [List.map_cons, List.map_nil]
      exact List.chain'_cons.mpr ⟨by omega, List.chain'_cons.mpr
        ⟨by omega, List.chain'_singleton _⟩⟩)
  exact ⟨h.1, h.2 0 (by decide), h.2 1 (by decide)⟩

end AiService
